import Mathlib

/-!
Verification of the query-cache-and-filter pipeline of the fraud-detection
dashboard (`src/app.py`).

The embedding models, faithfully to the source:
  * the cached query runner `run_query` (`@st.cache_data(ttl=60)` wrapping a
    `try/except` around `session.sql(q).to_pandas()`, app.py:18-24);
  * date decomposition (`pd.to_datetime` on the designated timestamp column
    with its default `errors="raise"` policy, then `.dt.year` / `.dt.month`,
    app.py:55-57 and 163-165);
  * the group-by-sum aggregation (`groupby("YEAR")["HIGH_RISK_TXNS"].sum()`,
    app.py:64, whose group keys pandas emits in ascending order);
  * the selectbox option domains (`sorted(df[col].unique())`,
    app.py:78-82, 102-113, 169-173);
  * the drill-down equality-filter chain (app.py:187-198);
  * the drill-down fetch row cap (`LIMIT 2000` in the query text issued by
    the adapter, app.py:155-159).

Timestamps cells are modelled abstractly: a cell either parses to a calendar
date or is malformed raw text; whether a concrete string parses is decided by
the external datetime library and is irrelevant to the properties proved here.
Machine time is modelled as a natural number of seconds.
-/

/-- A parsed calendar timestamp: the fields `pd.to_datetime` exposes that the
dashboard reads (`dt.year`, `dt.month`), plus the day, which orders daily
points. -/
structure Date where
  year : Nat
  month : Nat
  day : Nat
deriving DecidableEq, Repr

/-- A raw timestamp cell as fetched from the warehouse: either text that
parses to a calendar date, or malformed text that `pd.to_datetime` (with its
default `errors="raise"`) rejects. -/
inductive TsCell where
  | valid (d : Date)
  | malformed (raw : String)
deriving DecidableEq, Repr

/-- A row of `VW_FRAUD_TRENDS` restricted to the columns the dashboard reads:
`TXN_DATE` and the metric `HIGH_RISK_TXNS` (app.py:48-57, 64, 84-85, 120-123). -/
structure TrendRow where
  txnDate : TsCell
  highRiskTxns : Int
deriving DecidableEq, Repr

/-- A trend row after date decomposition: `TXN_DATE` parsed, plus the derived
`YEAR` and `MONTH` columns (app.py:55-57). -/
structure AugTrendRow where
  txnDate : Date
  highRiskTxns : Int
  year : Nat
  month : Nat
deriving DecidableEq, Repr

/-- A row of `VW_FRAUD_DASHBOARD` restricted to the columns the drill-down
reads: `TXN_TIME`, nullable `LOCATION`, and `FRAUD_RISK_LEVEL`
(app.py:155-200). -/
structure DashRow where
  txnTime : TsCell
  location : Option String
  fraudRiskLevel : String
deriving DecidableEq, Repr

/-- A dashboard row after date decomposition: `TXN_TIME` parsed, plus the
derived `YEAR` and `MONTH` columns (app.py:163-165). -/
structure AugDashRow where
  txnTime : Date
  location : Option String
  fraudRiskLevel : String
  year : Nat
  month : Nat
deriving DecidableEq, Repr

/-! ## Result cache (`@st.cache_data(ttl=60) def run_query`, app.py:18-24)

`st.cache_data` memoizes `run_query` keyed by its argument (the query text),
with a 60-second time-to-live, and hands each caller a fresh deep copy of the
cached value, so in-place mutation of a returned frame never touches the
stored entry.  A table is a list of typed rows; the empty `pd.DataFrame()`
returned on failure is the table with zero rows. -/

/-- The process-wide time-to-live of the result cache, in seconds
(`ttl=60`, app.py:18). -/
def TTL : Nat := 60

/-- One memoized entry: the fetched table and the time it was fetched. -/
structure CacheEntry (α : Type) where
  result : α
  fetchTime : Nat
deriving DecidableEq, Repr

/-- The cache state: an association of query text to entry (at most one live
entry per key; `insertEntry` maintains this). -/
abbrev CacheState (α : Type) : Type := List (String × CacheEntry α)

/-- Look up the entry stored for query text `q`, if any. -/
def lookupEntry {α : Type} (c : CacheState α) (q : String) : Option (CacheEntry α) :=
  (List.find? (fun p => p.1 == q) c).map (fun p => p.2)

/-- Store entry `e` for query text `q`, replacing any previous entry. -/
def insertEntry {α : Type} (c : CacheState α) (q : String) (e : CacheEntry α) : CacheState α :=
  (q, e) :: List.filter (fun p => !(p.1 == q)) c

/-- The observable outcome of one `run_query` call: the returned table, the
`st.error` messages emitted, whether the warehouse adapter was invoked, and
the cache state afterwards. -/
structure RunResult (ρ : Type) where
  result : List ρ
  errors : List String
  invoked : Bool
  cache : CacheState (List ρ)

/-- The cache-miss path of `run_query` (app.py:19-24): invoke the adapter;
on success store and return its table, on failure report
`Query Failed: ...` via `st.error` and store and return the empty table. -/
def fetchStore {ρ : Type} (adapter : String → Except String (List ρ))
    (c : CacheState (List ρ)) (now : Nat) (q : String) : RunResult ρ :=
  match adapter q with
  | .ok t => ⟨t, [], true, insertEntry c q ⟨t, now⟩⟩
  | .error msg => ⟨[], ["Query Failed: " ++ msg], true, insertEntry c q ⟨[], now⟩⟩

/-- The cached query runner (app.py:18-24): a fresh entry (age under `TTL`
seconds) is returned as is without touching the adapter; otherwise the
adapter is invoked and its outcome stored. -/
def run_query {ρ : Type} (adapter : String → Except String (List ρ))
    (c : CacheState (List ρ)) (now : Nat) (q : String) : RunResult ρ :=
  match lookupEntry c q with
  | some e => if now - e.fetchTime < TTL then ⟨e.result, [], false, c⟩ else fetchStore adapter c now q
  | none => fetchStore adapter c now q

/-! ## Date decomposition (app.py:55-57, 163-165)

`pd.to_datetime(column)` with the default `errors="raise"` policy raises on
the first malformed cell, aborting the render (the call sits outside
`run_query`'s `try/except`); when every cell parses, each row keeps its place
and gains `YEAR` and `MONTH` derived from its parsed timestamp. -/

/-- Decomposition of the trend table (app.py:55-57): parse `TXN_DATE` and
add `YEAR`/`MONTH`, failing on the first malformed cell exactly as
`pd.to_datetime` does. -/
def decomposeTrend : List TrendRow → Except String (List AugTrendRow)
  | [] => .ok []
  | r :: rs =>
    match r.txnDate with
    | .malformed raw => .error ("Unknown datetime string format: " ++ raw)
    | .valid d =>
      (decomposeTrend rs).map (fun rest => ⟨d, r.highRiskTxns, d.year, d.month⟩ :: rest)

/-- Decomposition of the drill-down table (app.py:163-165): parse `TXN_TIME`
and add `YEAR`/`MONTH`, failing on the first malformed cell exactly as
`pd.to_datetime` does. -/
def decomposeDash : List DashRow → Except String (List AugDashRow)
  | [] => .ok []
  | r :: rs =>
    match r.txnTime with
    | .malformed raw => .error ("Unknown datetime string format: " ++ raw)
    | .valid d =>
      (decomposeDash rs).map (fun rest => ⟨d, r.location, r.fraudRiskLevel, d.year, d.month⟩ :: rest)

/-- The decomposition the specification describes instead: rows whose
timestamp cell fails strict parsing are dropped and the remaining rows are
decomposed.  Stated from the spec's words only, for comparison with
`decomposeTrend`, which is the behavior of the source. -/
def decomposeTrendSpec (t : List TrendRow) : List AugTrendRow :=
  t.filterMap (fun r =>
    match r.txnDate with
    | .valid d => some ⟨d, r.highRiskTxns, d.year, d.month⟩
    | .malformed _ => none)

/-! ## Aggregation (app.py:64, 84-85)

`df.groupby(key)[metric].sum().reset_index()` emits one row per distinct key
value present, keys in ascending order, each paired with the sum of the
metric over its group; absent keys get no row. -/

/-- The distinct values of a column, in ascending order: models both the key
order of a pandas `groupby` result and `sorted(series.unique())`. -/
def distinctSorted (l : List Nat) : List Nat :=
  List.insertionSort (· ≤ ·) l.dedup

/-- Sum of the `HIGH_RISK_TXNS` metric over the trend rows of year `y`. -/
def sumYear (t : List AugTrendRow) (y : Nat) : Int :=
  ((t.filter (fun r => decide (r.year = y))).map (fun r => r.highRiskTxns)).sum

/-- The yearly aggregate `trend_df.groupby("YEAR")["HIGH_RISK_TXNS"].sum()
.reset_index()` (app.py:64): one `(YEAR, HIGH_RISK_TXNS)` row per distinct
year present, in ascending year order. -/
def yearlyAgg (t : List AugTrendRow) : List (Nat × Int) :=
  (distinctSorted (t.map (fun r => r.year))).map (fun y => (y, sumYear t y))

/-! ## Selectbox option domains (app.py:78-82, 102-113, 169-173) -/

/-- Year options of the daily-trend selectors:
`sorted(trend_df["YEAR"].unique())` (app.py:80, 104). -/
def trendYearOptions (t : List AugTrendRow) : List Nat :=
  distinctSorted (t.map (fun r => r.year))

/-- Month options of the daily-trend month selector:
`sorted(trend_df[trend_df["YEAR"] == year_d]["MONTH"].unique())`
(app.py:111) — drawn from the table already restricted to the chosen year. -/
def dailyMonthOptions (t : List AugTrendRow) (y : Nat) : List Nat :=
  distinctSorted ((t.filter (fun r => decide (r.year = y))).map (fun r => r.month))

/-- Year options of the drill-down year selector:
`sorted(dash_df["YEAR"].unique())` (app.py:170). -/
def drillYearOptions (t : List AugDashRow) : List Nat :=
  distinctSorted (t.map (fun r => r.year))

/-- Month options of the drill-down month selector:
`sorted(dash_df["MONTH"].unique())` (app.py:173) — drawn from the full
fetched table, with no restriction by the selected year. -/
def drillMonthOptions (t : List AugDashRow) : List Nat :=
  distinctSorted (t.map (fun r => r.month))

/-! ## Drill-down equality-filter chain (app.py:187-198) -/

/-- The selection state feeding the drill-down filter: `year` and `month`
come from selectboxes offering only values present in the table (no "ALL"
sentinel, app.py:170, 173); `city` and `risk` may be the literal "ALL"
sentinel (app.py:176-185). -/
structure FilterSpec where
  year : Nat
  month : Nat
  city : String
  risk : String
deriving DecidableEq, Repr

/-- The drill-down filter chain (app.py:187-198): the year and month
equalities are applied unconditionally in one mask, then the location and
risk-level equalities each apply only when their selection is not "ALL". -/
def filteredDf (t : List AugDashRow) (s : FilterSpec) : List AugDashRow :=
  let t1 := t.filter (fun r => decide (r.year = s.year ∧ r.month = s.month))
  let t2 := if s.city = "ALL" then t1 else t1.filter (fun r => decide (r.location = some s.city))
  if s.risk = "ALL" then t2 else t2.filter (fun r => decide (r.fraudRiskLevel = s.risk))

/-- The same constraints applied as filters in the opposite order (risk
first, then city, then the year-and-month mask); used to state that the
conjunction is independent of application order. -/
def filteredDfRev (t : List AugDashRow) (s : FilterSpec) : List AugDashRow :=
  let t1 := if s.risk = "ALL" then t else t.filter (fun r => decide (r.fraudRiskLevel = s.risk))
  let t2 := if s.city = "ALL" then t1 else t1.filter (fun r => decide (r.location = some s.city))
  t2.filter (fun r => decide (r.year = s.year ∧ r.month = s.month))

/-- A row satisfies a `FilterSpec` when it meets every constraint that is not
the "ALL" sentinel, under exact equality. -/
def satisfiesSpec (r : AugDashRow) (s : FilterSpec) : Prop :=
  r.year = s.year ∧ r.month = s.month ∧
    (s.city = "ALL" ∨ r.location = some s.city) ∧
    (s.risk = "ALL" ∨ r.fraudRiskLevel = s.risk)

instance (r : AugDashRow) (s : FilterSpec) : Decidable (satisfiesSpec r s) := by
  unfold satisfiesSpec; infer_instance

/-! ## Drill-down fetch row cap (app.py:155-159) -/

/-- The drill-down fetch: the adapter issues
`SELECT * FROM FIN_FRAUD_DB.GOLD.VW_FRAUD_DASHBOARD LIMIT 2000`, so the
warehouse returns at most the first 2000 rows of the view, before the script
decomposes or filters anything (app.py:155-159). -/
def dashFetch (warehouse : List DashRow) : List DashRow :=
  warehouse.take 2000

/-! ## Concrete fixtures used in counterexamples and witnesses -/

/-- Whether a timestamp cell is text the datetime parser rejects. -/
def isMalformed : TsCell → Bool
  | .malformed _ => true
  | .valid _ => false

/-- A concrete parsed timestamp. -/
def exDate : Date := ⟨2024, 1, 5⟩

/-- A concrete drill-down row. -/
def exDashRow : DashRow := ⟨.valid exDate, some "DELHI", "HIGH_RISK"⟩

/-- An adapter that always succeeds with a one-row table. -/
def exAdapterOk : String → Except String (List DashRow) := fun _ => .ok [exDashRow]

/-- An adapter that always fails. -/
def exAdapterFail : String → Except String (List DashRow) := fun _ => .error "network down"

/-- A cache holding a single entry for query text "Q", fetched at time 0. -/
def exCache : CacheState (List DashRow) := insertEntry [] "Q" ⟨[exDashRow], 0⟩

/-- A trend row whose timestamp parses. -/
def exTrendGood : TrendRow := ⟨.valid ⟨2024, 1, 5⟩, 10⟩

/-- A trend row whose timestamp is malformed text. -/
def exTrendBad : TrendRow := ⟨.malformed "not-a-date", 3⟩

/-- A trend table holding one well-formed and one malformed row. -/
def exTrendTable : List TrendRow := [exTrendGood, exTrendBad]

/-- The yearly-aggregation example of the specification: three 2024 trend
rows with metric values 10, 5 and 7. -/
def exAggTable : List AugTrendRow :=
  [⟨⟨2024, 1, 5⟩, 10, 2024, 1⟩, ⟨⟨2024, 1, 20⟩, 5, 2024, 1⟩, ⟨⟨2024, 2, 1⟩, 7, 2024, 2⟩]

/-- A decomposed drill-down row with key (2024, 1). -/
def exDashAug1 : AugDashRow := ⟨⟨2024, 1, 5⟩, some "DELHI", "HIGH_RISK", 2024, 1⟩

/-- A decomposed drill-down row with key (2025, 2). -/
def exDashAug2 : AugDashRow := ⟨⟨2025, 2, 7⟩, some "MUMBAI", "LOW_RISK", 2025, 2⟩

/-- A two-row decomposed drill-down table with two distinct (year, month)
keys. -/
def exDashTable : List AugDashRow := [exDashAug1, exDashAug2]

/-! ## Helper lemmas: cache mechanics -/

/-- Looking up a key immediately after storing it yields the stored entry. -/
theorem lookupEntry_insertEntry {α : Type} (c : CacheState α) (q : String) (e : CacheEntry α) :
    lookupEntry (insertEntry c q e) q = some e := by
  simp [lookupEntry, insertEntry]

/-- Equation lemma: on a miss, `run_query` takes the fetch-and-store path. -/
theorem run_query_miss {ρ : Type} (adapter : String → Except String (List ρ))
    (c : CacheState (List ρ)) (now : Nat) (q : String) (h : lookupEntry c q = none) :
    run_query adapter c now q = fetchStore adapter c now q := by
  unfold run_query
  rw [h]

/-- Equation lemma: on a fresh hit, `run_query` returns the stored table
without invoking the adapter and leaves the cache unchanged. -/
theorem run_query_hit {ρ : Type} (adapter : String → Except String (List ρ))
    (c : CacheState (List ρ)) (now : Nat) (q : String) (e : CacheEntry (List ρ))
    (h : lookupEntry c q = some e) (hfresh : now - e.fetchTime < TTL) :
    run_query adapter c now q = ⟨e.result, [], false, c⟩ := by
  unfold run_query
  rw [h]
  simp [hfresh]

/-- Equation lemma: on a stale hit, `run_query` takes the fetch-and-store
path. -/
theorem run_query_stale {ρ : Type} (adapter : String → Except String (List ρ))
    (c : CacheState (List ρ)) (now : Nat) (q : String) (e : CacheEntry (List ρ))
    (h : lookupEntry c q = some e) (hstale : ¬ now - e.fetchTime < TTL) :
    run_query adapter c now q = fetchStore adapter c now q := by
  unfold run_query
  rw [h]
  simp [hstale]

/-- The fetch-and-store path always invokes the adapter and stores exactly
the table it returns, stamped with the current time. -/
theorem fetchStore_spec {ρ : Type} (adapter : String → Except String (List ρ))
    (c : CacheState (List ρ)) (now : Nat) (q : String) :
    (fetchStore adapter c now q).invoked = true ∧
    lookupEntry (fetchStore adapter c now q).cache q
      = some ⟨(fetchStore adapter c now q).result, now⟩ := by
  unfold fetchStore
  cases h : adapter q <;> simp [lookupEntry_insertEntry]

/-! ## Claim C3: cache TTL semantics -/

/-- C3: for every query string `q`, when no entry for `q` exists, a call at
`t1` and a second call at `t2` with `t2 - t1 < TTL` return identical tables
while the adapter is invoked exactly once (by the first call only); and a
call made when the stored entry's age has reached `TTL` re-invokes the
adapter and stores a fresh entry (the returned table, stamped with the call
time). -/
theorem run_query_ttl_semantics {ρ : Type} (adapter : String → Except String (List ρ))
    (c : CacheState (List ρ)) (q : String) (t1 t2 : Nat) :
    (lookupEntry c q = none → t1 ≤ t2 → t2 - t1 < TTL →
      (run_query adapter (run_query adapter c t1 q).cache t2 q).result
          = (run_query adapter c t1 q).result ∧
      (run_query adapter c t1 q).invoked = true ∧
      (run_query adapter (run_query adapter c t1 q).cache t2 q).invoked = false) ∧
    (∀ e : CacheEntry (List ρ), lookupEntry c q = some e → TTL ≤ t2 - e.fetchTime →
      (run_query adapter c t2 q).invoked = true ∧
      lookupEntry (run_query adapter c t2 q).cache q
          = some ⟨(run_query adapter c t2 q).result, t2⟩) := by
  constructor
  · intro hm _ httl
    rw [run_query_miss adapter c t1 q hm]
    have hstore := fetchStore_spec adapter c t1 q
    rw [run_query_hit adapter (fetchStore adapter c t1 q).cache t2 q
      ⟨(fetchStore adapter c t1 q).result, t1⟩ hstore.2 httl]
    exact ⟨rfl, hstore.1, rfl⟩
  · intro e he httl
    rw [run_query_stale adapter c t2 q e he (not_lt.mpr httl)]
    exact ⟨(fetchStore_spec adapter c t2 q).1, (fetchStore_spec adapter c t2 q).2⟩

/-- Witness for C3 at concrete inputs: an empty cache, query "Q", first call
at time 0, second at time 30 (within TTL); and a cache whose entry for "Q"
was fetched at time 0, queried again at time 60 (TTL elapsed). -/
theorem run_query_ttl_semantics_witness :
    ((run_query exAdapterOk (run_query exAdapterOk [] 0 "Q").cache 30 "Q").result
        = (run_query exAdapterOk [] 0 "Q").result ∧
      (run_query exAdapterOk [] 0 "Q").invoked = true ∧
      (run_query exAdapterOk (run_query exAdapterOk [] 0 "Q").cache 30 "Q").invoked = false) ∧
    ((run_query exAdapterOk exCache 60 "Q").invoked = true ∧
      lookupEntry (run_query exAdapterOk exCache 60 "Q").cache "Q"
        = some ⟨(run_query exAdapterOk exCache 60 "Q").result, 60⟩) :=
  ⟨(run_query_ttl_semantics exAdapterOk [] "Q" 0 30).1 rfl (by decide) (by decide),
   (run_query_ttl_semantics exAdapterOk exCache "Q" 0 60).2 ⟨[exDashRow], 0⟩
     (by decide) (by decide)⟩

/-! ## Claim C4: adapter failure isolation -/

/-- C4: `run_query` is a total function (it never propagates an exception:
its return type is a plain `RunResult`), and whenever the adapter is actually
invoked and fails, the call returns the explicit empty table, emits exactly
one descriptive `Query Failed` error report, and stores the empty table in
the cache stamped with the call time, like any other entry. -/
theorem run_query_failure_isolated {ρ : Type} (adapter : String → Except String (List ρ))
    (c : CacheState (List ρ)) (now : Nat) (q : String) (msg : String)
    (hfail : adapter q = .error msg)
    (hinv : (run_query adapter c now q).invoked = true) :
    (run_query adapter c now q).result = [] ∧
    (run_query adapter c now q).errors = ["Query Failed: " ++ msg] ∧
    lookupEntry (run_query adapter c now q).cache q = some ⟨[], now⟩ := by
  have hfs : fetchStore adapter c now q = ⟨[], ["Query Failed: " ++ msg], true, insertEntry c q ⟨[], now⟩⟩ := by
    unfold fetchStore
    rw [hfail]
  cases hl : lookupEntry c q with
  | none =>
    rw [run_query_miss adapter c now q hl, hfs]
    exact ⟨rfl, rfl, lookupEntry_insertEntry c q ⟨[], now⟩⟩
  | some e =>
    by_cases hf : now - e.fetchTime < TTL
    · rw [run_query_hit adapter c now q e hl hf] at hinv
      simp at hinv
    · rw [run_query_stale adapter c now q e hl hf, hfs]
      exact ⟨rfl, rfl, lookupEntry_insertEntry c q ⟨[], now⟩⟩

/-- Witness for C4: the failing adapter on an empty cache at time 0. -/
theorem run_query_failure_isolated_witness :
    (run_query exAdapterFail [] 0 "Q").result = [] ∧
    (run_query exAdapterFail [] 0 "Q").errors = ["Query Failed: " ++ "network down"] ∧
    lookupEntry (run_query exAdapterFail [] 0 "Q").cache "Q" = some ⟨[], 0⟩ :=
  run_query_failure_isolated exAdapterFail [] 0 "Q" "network down" rfl (by decide)

/-! ## Claim C9: decomposition does not touch the cache -/

/-- C9: date decomposition is pure with respect to the result cache.
`st.cache_data` hands the script a fresh copy of the stored table, so the
in-place column assignments of app.py:163-165 are modelled by
`decomposeDash`, which builds a new table from the returned copy: a cache
hit leaves the cache state itself unchanged, and any later within-TTL hit
for the same query returns the original un-augmented table (a `DashRow`
table with no `YEAR`/`MONTH` columns), from which decomposition is
recomputed. -/
theorem decomposition_cache_frame (adapter : String → Except String (List DashRow))
    (c : CacheState (List DashRow)) (q : String) (t1 t2 : Nat)
    (e : CacheEntry (List DashRow)) (he : lookupEntry c q = some e)
    (h1 : t1 - e.fetchTime < TTL) (h2 : t2 - e.fetchTime < TTL) :
    (run_query adapter c t1 q).cache = c ∧
    (run_query adapter c t1 q).result = e.result ∧
    (run_query adapter c t2 q).result = e.result ∧
    decomposeDash (run_query adapter c t2 q).result
      = decomposeDash (run_query adapter c t1 q).result := by
  rw [run_query_hit adapter c t1 q e he h1, run_query_hit adapter c t2 q e he h2]
  exact ⟨rfl, rfl, rfl, rfl⟩

/-- Witness for C9: a cache holding one entry fetched at time 0, read at
times 10 and 20 (both within TTL). -/
theorem decomposition_cache_frame_witness :
    (run_query exAdapterOk exCache 10 "Q").cache = exCache ∧
    (run_query exAdapterOk exCache 10 "Q").result = [exDashRow] ∧
    (run_query exAdapterOk exCache 20 "Q").result = [exDashRow] ∧
    decomposeDash (run_query exAdapterOk exCache 20 "Q").result
      = decomposeDash (run_query exAdapterOk exCache 10 "Q").result :=
  decomposition_cache_frame exAdapterOk exCache "Q" 10 20 ⟨[exDashRow], 0⟩
    (by decide) (by decide) (by decide)

/-! ## Helper lemmas: date decomposition -/

/-- Equation lemma: decomposing a table whose first row has a valid
timestamp recurses on the tail. -/
theorem decomposeTrend_cons_valid (r : TrendRow) (rs : List TrendRow) (d : Date)
    (hd : r.txnDate = .valid d) :
    decomposeTrend (r :: rs)
      = (decomposeTrend rs).map
          (fun rest => (⟨d, r.highRiskTxns, d.year, d.month⟩ : AugTrendRow) :: rest) := by
  simp [decomposeTrend, hd]

/-- Equation lemma: decomposing a table whose first row has a malformed
timestamp fails at once. -/
theorem decomposeTrend_cons_malformed (r : TrendRow) (rs : List TrendRow) (raw : String)
    (hd : r.txnDate = .malformed raw) :
    decomposeTrend (r :: rs) = .error ("Unknown datetime string format: " ++ raw) := by
  simp [decomposeTrend, hd]

/-- When every timestamp cell parses, `decomposeTrend` succeeds, the
spec-described row-dropping decomposition coincides with it, and no row is
dropped. -/
theorem decomposeTrend_all_valid (t : List TrendRow)
    (h : ∀ r ∈ t, isMalformed r.txnDate = false) :
    decomposeTrend t = .ok (decomposeTrendSpec t) ∧
    (decomposeTrendSpec t).length = t.length := by
  induction t with
  | nil => exact ⟨rfl, rfl⟩
  | cons r rs ih =>
    have hrs := ih (fun x hx => h x (List.mem_cons_of_mem r hx))
    cases hd : r.txnDate with
    | malformed raw =>
      have hr := h r (List.mem_cons_self r rs)
      rw [hd] at hr
      simp [isMalformed] at hr
    | valid d =>
      have h1 : decomposeTrendSpec (r :: rs)
          = (⟨d, r.highRiskTxns, d.year, d.month⟩ : AugTrendRow) :: decomposeTrendSpec rs := by
        simp [decomposeTrendSpec, List.filterMap_cons, hd]
      refine ⟨?_, ?_⟩
      · rw [decomposeTrend_cons_valid r rs d hd, hrs.1, h1]
        rfl
      · rw [h1]
        simp [hrs.2]

/-- When some timestamp cell is malformed, `decomposeTrend` fails, exactly
as `pd.to_datetime` raises. -/
theorem decomposeTrend_malformed (t : List TrendRow)
    (h : ∃ r ∈ t, isMalformed r.txnDate = true) :
    ∃ msg, decomposeTrend t = .error msg := by
  induction t with
  | nil => simp at h
  | cons r rs ih =>
    cases hd : r.txnDate with
    | malformed raw =>
      exact ⟨"Unknown datetime string format: " ++ raw,
        decomposeTrend_cons_malformed r rs raw hd⟩
    | valid d =>
      obtain ⟨x, hx, hbad⟩ := h
      rcases List.mem_cons.mp hx with hx | hx
      · subst hx
        rw [hd] at hbad
        simp [isMalformed] at hbad
      · obtain ⟨msg, hmsg⟩ := ih ⟨x, hx, hbad⟩
        refine ⟨msg, ?_⟩
        rw [decomposeTrend_cons_valid r rs d hd, hmsg]
        rfl

/-- Equation lemma: decomposing a drill-down table whose first row has a
valid timestamp recurses on the tail. -/
theorem decomposeDash_cons_valid (r : DashRow) (rs : List DashRow) (d : Date)
    (hd : r.txnTime = .valid d) :
    decomposeDash (r :: rs)
      = (decomposeDash rs).map
          (fun rest => (⟨d, r.location, r.fraudRiskLevel, d.year, d.month⟩ : AugDashRow) :: rest) := by
  simp [decomposeDash, hd]

/-- Successful decomposition of the drill-down table preserves the number of
rows. -/
theorem decomposeDash_ok_length (t : List DashRow) (out : List AugDashRow)
    (h : decomposeDash t = .ok out) : out.length = t.length := by
  induction t generalizing out with
  | nil =>
    simp [decomposeDash] at h
    simp [← h]
  | cons r rs ih =>
    cases hd : r.txnTime with
    | malformed raw => simp [decomposeDash, hd] at h
    | valid d =>
      rw [decomposeDash_cons_valid r rs d hd] at h
      cases hrec : decomposeDash rs with
      | error msg =>
        rw [hrec] at h
        exact absurd h (by simp [Except.map])
      | ok rest =>
        rw [hrec] at h
        simp [Except.map] at h
        simp [← h, ih rest hrec]

/-! ## Claim C2: malformed timestamps (corrected)

The claim says rows with unparseable timestamps are dropped and the render
of the remaining rows completes.  The source calls `pd.to_datetime` with its
default `errors="raise"` policy, outside `run_query`'s `try/except`
(app.py:55, 163): one malformed cell raises and aborts the whole render, and
no row is ever dropped. -/

/-- C2 counterexample: on a table with one well-formed and one malformed
row, decomposition errors out (the render aborts) instead of returning the
well-formed row with the malformed one dropped, as the claim states. -/
theorem decompose_drop_counterexample :
    decomposeTrend exTrendTable = .error "Unknown datetime string format: not-a-date" ∧
    decomposeTrendSpec exTrendTable
      = [(⟨⟨2024, 1, 5⟩, 10, 2024, 1⟩ : AugTrendRow)] ∧
    decomposeTrend exTrendTable ≠ .ok (decomposeTrendSpec exTrendTable) := by
  refine ⟨rfl, rfl, ?_⟩
  intro h
  rw [show decomposeTrend exTrendTable
      = .error "Unknown datetime string format: not-a-date" from rfl] at h
  exact Except.noConfusion h

/-- C2 amended: decomposition never drops a row.  When every timestamp cell
parses, it succeeds, retaining all rows (and agrees with the drop-malformed
decomposition the spec describes, which drops nothing here); when any cell
is malformed, it fails, aborting the whole render exactly as
`pd.to_datetime` raises past the adapter's `try/except`. -/
theorem decompose_malformed_aborts (t : List TrendRow) :
    ((∀ r ∈ t, isMalformed r.txnDate = false) →
      decomposeTrend t = .ok (decomposeTrendSpec t) ∧
      (decomposeTrendSpec t).length = t.length) ∧
    ((∃ r ∈ t, isMalformed r.txnDate = true) →
      ∃ msg, decomposeTrend t = .error msg) :=
  ⟨decomposeTrend_all_valid t, decomposeTrend_malformed t⟩

/-- Witness for C2 at concrete inputs: an all-valid one-row table
decomposes completely, and the mixed table aborts. -/
theorem decompose_malformed_aborts_witness :
    (decomposeTrend [exTrendGood] = .ok (decomposeTrendSpec [exTrendGood]) ∧
      (decomposeTrendSpec [exTrendGood]).length = [exTrendGood].length) ∧
    (∃ msg, decomposeTrend exTrendTable = .error msg) :=
  ⟨(decompose_malformed_aborts [exTrendGood]).1 (by decide),
   (decompose_malformed_aborts exTrendTable).2 ⟨exTrendBad, by decide, by decide⟩⟩

/-! ## Helper lemmas: sorted distinct column values -/

/-- Membership in the sorted distinct values is membership in the column. -/
theorem mem_distinctSorted (l : List Nat) (x : Nat) :
    x ∈ distinctSorted l ↔ x ∈ l := by
  unfold distinctSorted
  rw [List.mem_insertionSort, List.mem_dedup]

/-- The sorted distinct values are sorted in weakly increasing order. -/
theorem sorted_distinctSorted (l : List Nat) :
    List.Sorted (· ≤ ·) (distinctSorted l) :=
  List.sorted_insertionSort _ _

/-- The sorted distinct values contain no duplicates. -/
theorem nodup_distinctSorted (l : List Nat) :
    (distinctSorted l).Nodup :=
  ((List.perm_insertionSort _ _).nodup_iff).mpr (List.nodup_dedup l)

/-- The sorted distinct values are strictly increasing: one entry per
distinct value, in ascending order. -/
theorem sortedLt_distinctSorted (l : List Nat) :
    List.Sorted (· < ·) (distinctSorted l) :=
  (sorted_distinctSorted l).lt_of_le (nodup_distinctSorted l)

/-- There are as many sorted distinct values as distinct values. -/
theorem length_distinctSorted (l : List Nat) :
    (distinctSorted l).length = l.dedup.length :=
  (List.perm_insertionSort _ _).length_eq

/-! ## Claim C5: yearly group-by-sum aggregation -/

/-- C5: the yearly aggregate has exactly one output row per distinct `YEAR`
value present in the table, rows are strictly ascending in `YEAR` (so
ordered, with no duplicate or zero-filled year), and a pair `(y, v)` is an
output row exactly when some input row has year `y` and `v` is the sum of
the `HIGH_RISK_TXNS` metric over all input rows with year `y`. -/
theorem yearlyAgg_correct (t : List AugTrendRow) :
    (yearlyAgg t).length = (t.map (fun r => r.year)).dedup.length ∧
    List.Sorted (fun a b : Nat × Int => a.1 < b.1) (yearlyAgg t) ∧
    (∀ y v, (y, v) ∈ yearlyAgg t ↔
      ((∃ r ∈ t, r.year = y) ∧
        v = ((t.filter (fun r => decide (r.year = y))).map (fun r => r.highRiskTxns)).sum)) := by
  refine ⟨?_, ?_, ?_⟩
  · rw [yearlyAgg, List.length_map, length_distinctSorted]
  · have h := sortedLt_distinctSorted (t.map (fun r => r.year))
    have h2 : List.Pairwise (fun a b : Nat => (a, sumYear t a).1 < (b, sumYear t b).1)
        (distinctSorted (t.map (fun r => r.year))) := h
    exact List.pairwise_map.mpr h2
  · intro y v
    unfold yearlyAgg
    rw [List.mem_map]
    constructor
    · rintro ⟨a, ha, hav⟩
      simp only [Prod.mk.injEq] at hav
      obtain ⟨h1, h2⟩ := hav
      subst h1
      refine ⟨?_, ?_⟩
      · have ha2 := (mem_distinctSorted _ _).mp ha
        rw [List.mem_map] at ha2
        obtain ⟨r, hr, hry⟩ := ha2
        exact ⟨r, hr, hry⟩
      · rw [← h2]
        rfl
    · rintro ⟨⟨r, hr, hry⟩, hv⟩
      refine ⟨y, ?_, ?_⟩
      · rw [mem_distinctSorted, List.mem_map]
        exact ⟨r, hr, hry⟩
      · show (y, sumYear t y) = (y, v)
        rw [hv]
        rfl

/-- Witness for C5: on the example table, `(2024, 22)` is an output row of
the yearly aggregate. -/
theorem yearlyAgg_correct_witness :
    ((2024 : Nat), (22 : Int)) ∈ yearlyAgg exAggTable :=
  ((yearlyAgg_correct exAggTable).2.2 2024 22).mpr
    ⟨⟨⟨⟨2024, 1, 5⟩, 10, 2024, 1⟩, by decide, rfl⟩, by decide⟩

/-! ## Helper lemmas: the drill-down filter chain -/

/-- The filter chain is one filter by the conjunction of the non-ALL
constraints. -/
theorem filteredDf_eq_filter (t : List AugDashRow) (s : FilterSpec) :
    filteredDf t s = t.filter (fun r => decide (satisfiesSpec r s)) := by
  by_cases hc : s.city = "ALL" <;> by_cases hr : s.risk = "ALL"
  · simp only [filteredDf, hc, hr, if_true, reduceIte]
    refine List.filter_congr ?_
    intro r _
    simp [satisfiesSpec, hc, hr]
  · simp only [filteredDf, hc, hr, if_true, if_false, reduceIte, if_neg hr]
    rw [List.filter_filter]
    refine List.filter_congr ?_
    intro r _
    simp [satisfiesSpec, hc, hr, Bool.and_comm, Bool.and_assoc, Bool.and_left_comm]
  · simp only [filteredDf, hr, if_true, reduceIte, if_neg hc]
    rw [List.filter_filter]
    refine List.filter_congr ?_
    intro r _
    simp [satisfiesSpec, hc, hr, Bool.and_comm, Bool.and_assoc, Bool.and_left_comm]
  · simp only [filteredDf, if_neg hc, if_neg hr]
    rw [List.filter_filter, List.filter_filter]
    refine List.filter_congr ?_
    intro r _
    simp [satisfiesSpec, hc, hr, Bool.and_comm, Bool.and_assoc, Bool.and_left_comm]

/-- The reversed chain is one filter by the same conjunction. -/
theorem filteredDfRev_eq_filter (t : List AugDashRow) (s : FilterSpec) :
    filteredDfRev t s = t.filter (fun r => decide (satisfiesSpec r s)) := by
  by_cases hc : s.city = "ALL" <;> by_cases hr : s.risk = "ALL"
  · simp only [filteredDfRev, hc, hr, if_true, reduceIte]
    refine List.filter_congr ?_
    intro r _
    simp [satisfiesSpec, hc, hr]
  · simp only [filteredDfRev, hc, hr, if_true, reduceIte, if_neg hr]
    rw [List.filter_filter]
    refine List.filter_congr ?_
    intro r _
    simp [satisfiesSpec, hc, hr, Bool.and_comm, Bool.and_assoc, Bool.and_left_comm]
  · simp only [filteredDfRev, hr, if_true, reduceIte, if_neg hc]
    rw [List.filter_filter]
    refine List.filter_congr ?_
    intro r _
    simp [satisfiesSpec, hc, hr, Bool.and_comm, Bool.and_assoc, Bool.and_left_comm]
  · simp only [filteredDfRev, if_neg hc, if_neg hr]
    rw [List.filter_filter, List.filter_filter]
    refine List.filter_congr ?_
    intro r _
    simp [satisfiesSpec, hc, hr, Bool.and_comm, Bool.and_assoc, Bool.and_left_comm]

/-! ## Claim C6: the filter chain is a conjunction of equality constraints -/

/-- C6: the drill-down filter chain equals the single filter by the
conjunction of all non-ALL constraints, is a subsequence of the table, keeps
a row exactly when the row is in the table and satisfies every non-ALL
constraint under exact equality, and yields the same output when the
constraints are applied in the opposite order. -/
theorem filteredDf_conjunction (t : List AugDashRow) (s : FilterSpec) :
    filteredDf t s = t.filter (fun r => decide (satisfiesSpec r s)) ∧
    (filteredDf t s).Sublist t ∧
    (∀ r, r ∈ filteredDf t s ↔ r ∈ t ∧ satisfiesSpec r s) ∧
    filteredDf t s = filteredDfRev t s := by
  refine ⟨filteredDf_eq_filter t s, ?_, ?_, ?_⟩
  · rw [filteredDf_eq_filter]
    exact List.filter_sublist t
  · intro r
    rw [filteredDf_eq_filter, List.mem_filter]
    simp
  · rw [filteredDf_eq_filter, filteredDfRev_eq_filter]

/-- Witness for C6: the 2024/January high-risk row passes the filter for
year 2024, month 1, any city, risk HIGH_RISK. -/
theorem filteredDf_conjunction_witness :
    exDashAug1 ∈ filteredDf exDashTable ⟨2024, 1, "ALL", "HIGH_RISK"⟩ :=
  ((filteredDf_conjunction exDashTable ⟨2024, 1, "ALL", "HIGH_RISK"⟩).2.2.1 exDashAug1).mpr
    ⟨by decide, by decide⟩

/-! ## Claim C7: the all-ALL spec is not the identity (corrected)

The spec's FilterSpec has an "ALL" sentinel for every constraint, but the
source offers no "ALL" option for year and month (app.py:170, 173) and
applies their equalities unconditionally (app.py:187-190): the chain with
city and risk both "ALL" still restricts to the selected year and month. -/

/-- C7 counterexample: on a two-key table, the filter with every ALL-capable
selection set to "ALL" (and some offered year/month selection) returns a
strict subtable, not the table unchanged. -/
theorem filter_identity_counterexample :
    filteredDf exDashTable ⟨2024, 1, "ALL", "ALL"⟩ = [exDashAug1] ∧
    filteredDf exDashTable ⟨2024, 1, "ALL", "ALL"⟩ ≠ exDashTable := by
  decide

/-- C7 amended: the city and risk "ALL" sentinels are no-ops — with both set
to "ALL" the chain reduces to exactly the unconditional year-and-month
equality filter — and the filter returns the table unchanged precisely on
tables all of whose rows already bear the selected year and month. -/
theorem filter_all_sentinel (t : List AugDashRow) (y m : Nat) :
    filteredDf t ⟨y, m, "ALL", "ALL"⟩
      = t.filter (fun r => decide (r.year = y ∧ r.month = m)) ∧
    ((∀ r ∈ t, r.year = y ∧ r.month = m) → filteredDf t ⟨y, m, "ALL", "ALL"⟩ = t) := by
  have h1 : filteredDf t ⟨y, m, "ALL", "ALL"⟩
      = t.filter (fun r => decide (r.year = y ∧ r.month = m)) := by
    simp [filteredDf]
  refine ⟨h1, ?_⟩
  intro h
  rw [h1]
  refine List.filter_eq_self.mpr ?_
  intro r hr
  simpa using h r hr

/-- Witness for C7: on a one-key table bearing the selected key, the chain
with city and risk both "ALL" is the identity. -/
theorem filter_all_sentinel_witness :
    filteredDf [exDashAug1] ⟨2024, 1, "ALL", "ALL"⟩ = [exDashAug1] :=
  (filter_all_sentinel [exDashAug1] 2024 1).2 (by decide)

/-! ## Claim C1: month selector domains (corrected)

The daily-trend month selector (app.py:111) draws its domain from the table
already restricted to the selected year; the drill-down month selector
(app.py:173) draws its domain from the full fetched table. -/

/-- C1 counterexample: in the two-row table, year 2024 is on offer and month
2 occurs only under year 2025, yet the drill-down month selector offers
month 2: its domain is not the distinct months of the year-2024 rows. -/
theorem month_domain_counterexample :
    2024 ∈ drillYearOptions exDashTable ∧
    2 ∈ drillMonthOptions exDashTable ∧
    ((exDashTable.filter (fun r => decide (r.year = 2024))).map (fun r => r.month)) = [1] ∧
    drillMonthOptions exDashTable
      ≠ distinctSorted
          ((exDashTable.filter (fun r => decide (r.year = 2024))).map (fun r => r.month)) := by
  decide

/-- C1 amended: the daily-trend month selector offers exactly the distinct
months among trend rows of the selected year, strictly ascending; the
drill-down month selector offers exactly the distinct months of the whole
fetched table, strictly ascending, regardless of the selected year. -/
theorem month_domains (t : List AugTrendRow) (d : List AugDashRow) (y : Nat) :
    (∀ m, m ∈ dailyMonthOptions t y ↔ ∃ r ∈ t, r.year = y ∧ r.month = m) ∧
    List.Sorted (· < ·) (dailyMonthOptions t y) ∧
    (∀ m, m ∈ drillMonthOptions d ↔ ∃ r ∈ d, r.month = m) ∧
    List.Sorted (· < ·) (drillMonthOptions d) := by
  refine ⟨?_, sortedLt_distinctSorted _, ?_, sortedLt_distinctSorted _⟩
  · intro m
    rw [dailyMonthOptions, mem_distinctSorted, List.mem_map]
    constructor
    · rintro ⟨r, hr, hm⟩
      rw [List.mem_filter] at hr
      refine ⟨r, hr.1, ?_, hm⟩
      simpa using hr.2
    · rintro ⟨r, hr, hy, hm⟩
      exact ⟨r, List.mem_filter.mpr ⟨hr, by simpa using hy⟩, hm⟩
  · intro m
    rw [drillMonthOptions, mem_distinctSorted, List.mem_map]

/-- Witness for C1: month 1 is offered for year 2024 on the trend example,
and the drill-down selector offers month 2 from the full table. -/
theorem month_domains_witness :
    1 ∈ dailyMonthOptions exAggTable 2024 ∧ 2 ∈ drillMonthOptions exDashTable :=
  ⟨((month_domains exAggTable exDashTable 2024).1 1).mpr
      ⟨⟨⟨2024, 1, 5⟩, 10, 2024, 1⟩, by decide, rfl, rfl⟩,
   ((month_domains exAggTable exDashTable 2024).2.2.1 2).mpr ⟨exDashAug2, by decide, rfl⟩⟩

/-! ## Claim C10: the drill-down view is always year/month constrained -/

/-- C10: the drill-down year and month selectors offer only values present
in the fetched table (their domains carry no "ALL" sentinel), every row of
the filtered view bears the selected year and month whatever the city and
risk selections are, and whenever the table holds two rows with different
(YEAR, MONTH) keys no selection makes the filtered view equal the whole
table: the unconstrained (identity) view is unreachable. -/
theorem drilldown_always_constrained (t : List AugDashRow) :
    (∀ y ∈ drillYearOptions t, ∃ r ∈ t, r.year = y) ∧
    (∀ m ∈ drillMonthOptions t, ∃ r ∈ t, r.month = m) ∧
    (∀ s : FilterSpec, ∀ r ∈ filteredDf t s, r.year = s.year ∧ r.month = s.month) ∧
    (∀ r1 ∈ t, ∀ r2 ∈ t, (r1.year, r1.month) ≠ (r2.year, r2.month) →
      ∀ s : FilterSpec, filteredDf t s ≠ t) := by
  have key : ∀ s : FilterSpec, ∀ r ∈ filteredDf t s, r.year = s.year ∧ r.month = s.month := by
    intro s r hr
    rw [filteredDf_eq_filter, List.mem_filter] at hr
    have hs : satisfiesSpec r s := by simpa using hr.2
    exact ⟨hs.1, hs.2.1⟩
  refine ⟨?_, ?_, key, ?_⟩
  · intro y hy
    rw [drillYearOptions, mem_distinctSorted, List.mem_map] at hy
    exact hy
  · intro m hm
    rw [drillMonthOptions, mem_distinctSorted, List.mem_map] at hm
    exact hm
  · intro r1 h1 r2 h2 hne s heq
    have k1 : r1.year = s.year ∧ r1.month = s.month := by
      refine key s r1 ?_
      rw [heq]
      exact h1
    have k2 : r2.year = s.year ∧ r2.month = s.month := by
      refine key s r2 ?_
      rw [heq]
      exact h2
    apply hne
    rw [Prod.mk.injEq]
    exact ⟨k1.1.trans k2.1.symm, k1.2.trans k2.2.symm⟩

/-- Witness for C10 on the two-key table: year 2024 is offered only because
a row bears it, the filtered row bears the selected key, and no selection
reproduces the whole table. -/
theorem drilldown_always_constrained_witness :
    (∃ r ∈ exDashTable, r.year = 2024) ∧
    (exDashAug1.year = 2024 ∧ exDashAug1.month = 1) ∧
    filteredDf exDashTable ⟨2024, 1, "ALL", "ALL"⟩ ≠ exDashTable :=
  ⟨(drilldown_always_constrained exDashTable).1 2024 (by decide),
   (drilldown_always_constrained exDashTable).2.2.1 ⟨2024, 1, "ALL", "ALL"⟩ exDashAug1
     (by decide),
   (drilldown_always_constrained exDashTable).2.2.2 exDashAug1 (by decide) exDashAug2
     (by decide) (by decide) ⟨2024, 1, "ALL", "ALL"⟩⟩

/-! ## Claim C8: the drill-down fetch row cap -/

/-- C8: the drill-down fetch returns at most 2000 rows whatever the size of
the warehouse view, the cap being applied by the adapter (it is part of the
issued query text) before any decomposition or filtering: a successful
decomposition of the fetched table has at most 2000 rows, and so does every
filtered view of it. -/
theorem dashFetch_row_cap (warehouse : List DashRow) :
    (dashFetch warehouse).length ≤ 2000 ∧
    (∀ out, decomposeDash (dashFetch warehouse) = .ok out →
      out.length ≤ 2000 ∧ ∀ s : FilterSpec, (filteredDf out s).length ≤ 2000) := by
  have hlen : (dashFetch warehouse).length ≤ 2000 := by
    simp [dashFetch]
  refine ⟨hlen, ?_⟩
  intro out hout
  have h2 : out.length ≤ 2000 := by
    rw [decomposeDash_ok_length _ _ hout]
    exact hlen
  refine ⟨h2, ?_⟩
  intro s
  have hsub : (filteredDf out s).length ≤ out.length := by
    rw [filteredDf_eq_filter]
    exact (List.filter_sublist out).length_le
  exact le_trans hsub h2

/-- Witness for C8: a one-row warehouse, decomposed and filtered, stays
under the cap. -/
theorem dashFetch_row_cap_witness :
    (dashFetch [exDashRow]).length ≤ 2000 ∧
    (filteredDf [(⟨⟨2024, 1, 5⟩, some "DELHI", "HIGH_RISK", 2024, 1⟩ : AugDashRow)]
        ⟨2024, 1, "ALL", "ALL"⟩).length ≤ 2000 :=
  ⟨(dashFetch_row_cap [exDashRow]).1,
   ((dashFetch_row_cap [exDashRow]).2
       [⟨⟨2024, 1, 5⟩, some "DELHI", "HIGH_RISK", 2024, 1⟩] rfl).2
     ⟨2024, 1, "ALL", "ALL"⟩⟩
